import Mathlib

/-!
Verification of the SMB-OS synchronization and reconciliation engine.

The definitions below are a shallow embedding of the JavaScript source:
`app/services/initial-sync.server.js` (initial-sync orchestrator, entity
sync loops, SyncLog helpers) and the webhook registration utility
(`registerWebhooks` / `deleteOldWebhooks`).  Machine behaviour of the JS
builtins the code relies on (`String.prototype.replace` with a string
pattern, `String.prototype.includes`, `BigInt(string)`, truthiness of
strings and null) is embedded explicitly.
-/

namespace SmbOS

/-- Whitespace characters trimmed by the ECMAScript ToBigInt string
conversion (the common ASCII subset; the source only ever feeds ASCII). -/
def isWSChar (c : Char) : Bool :=
  c = ' ' || c = '\t' || c = '\n' || c = '\r' || c = '\x0b' || c = '\x0c'

/-- Trim leading and trailing whitespace from a character list. -/
def trimWS (cs : List Char) : List Char :=
  ((cs.dropWhile isWSChar).reverse.dropWhile isWSChar).reverse

/-- Decimal digit test. -/
def isDecDigit (c : Char) : Bool := decide ('0' ≤ c) && decide (c ≤ '9')

/-- Value of a decimal digit character. -/
def decDigitVal (c : Char) : Nat := c.toNat - 48

/-- Decimal digit as an optional value. -/
def decDig? (c : Char) : Option Nat :=
  if isDecDigit c then some (decDigitVal c) else none

/-- Hexadecimal digit as an optional value. -/
def hexDig? (c : Char) : Option Nat :=
  if isDecDigit c then some (decDigitVal c)
  else if decide ('a' ≤ c) && decide (c ≤ 'f') then some (c.toNat - 87)
  else if decide ('A' ≤ c) && decide (c ≤ 'F') then some (c.toNat - 55)
  else none

/-- Octal digit as an optional value. -/
def octDig? (c : Char) : Option Nat :=
  if decide ('0' ≤ c) && decide (c ≤ '7') then some (decDigitVal c) else none

/-- Binary digit as an optional value. -/
def binDig? (c : Char) : Option Nat :=
  if c = '0' || c = '1' then some (decDigitVal c) else none

/-- Fold a digit list in the given base; any invalid character poisons the
result.  Used with a nonemptiness guard by `parseDigits`. -/
def parseDigitsAux (base : Nat) (dig : Char → Option Nat) (cs : List Char) : Option Nat :=
  cs.foldl (fun acc c =>
    match acc, dig c with
    | some a, some d => some (base * a + d)
    | _, _ => none) (some 0)

/-- Parse a nonempty digit string in the given base; `none` on an empty
string or on any invalid character. -/
def parseDigits (base : Nat) (dig : Char → Option Nat) (cs : List Char) : Option Nat :=
  if cs.isEmpty then none else parseDigitsAux base dig cs

/-- ECMAScript `BigInt(string)` conversion (StringIntegerLiteral grammar):
whitespace is trimmed; the empty remainder converts to 0; `0x`/`0o`/`0b`
literals are accepted; otherwise an optionally signed nonempty run of
decimal digits; anything else throws (modelled as `none`). -/
def jsBigInt? (s : String) : Option Int :=
  match trimWS s.data with
  | [] => some 0
  | c :: rest =>
    if c = '0' then
      match rest with
      | [] => some 0
      | d :: rest2 =>
        if d = 'x' || d = 'X' then (parseDigits 16 hexDig? rest2).map Int.ofNat
        else if d = 'o' || d = 'O' then (parseDigits 8 octDig? rest2).map Int.ofNat
        else if d = 'b' || d = 'B' then (parseDigits 2 binDig? rest2).map Int.ofNat
        else (parseDigits 10 decDig? (c :: rest)).map Int.ofNat
    else if c = '-' then (parseDigits 10 decDig? rest).map (fun n => -(n : Int))
    else if c = '+' then (parseDigits 10 decDig? rest).map Int.ofNat
    else (parseDigits 10 decDig? (c :: rest)).map Int.ofNat

/-- Remove the first occurrence of `pat` from a character list, scanning
left to right; the list is unchanged when `pat` does not occur.  This is
JS `s.replace(pat, "")` with a string pattern (first occurrence only). -/
def dropFirstOccur (pat : List Char) : List Char → List Char
  | [] => []
  | c :: rest =>
    if pat.isPrefixOf (c :: rest) then (c :: rest).drop pat.length
    else c :: dropFirstOccur pat rest

/-- JS `s.replace(pat, "")` for a string pattern: deletes the first
occurrence of `pat` in `s`. -/
def jsReplaceFirst (s pat : String) : String := String.mk (dropFirstOccur pat.data s.data)

/-- The gid literal stripped by `syncSingleProduct`. -/
def productGidTag : String := "gid://shopify/Product/"

/-- Remote-id reduction performed throughout `initial-sync.server.js`:
strip the first occurrence of the gid tag, then convert the remainder with
JS `BigInt`; a conversion failure is a thrown SyntaxError, modelled as
`Except.error`. -/
def gidToId (tag : String) (s : String) : Except String Int :=
  match jsBigInt? (jsReplaceFirst s tag) with
  | some n => Except.ok n
  | none => Except.error "SyntaxError: cannot convert string to a BigInt"

/-- Mathematical value of a decimal digit list, most significant first. -/
def decValue (ds : List Char) : Nat :=
  ds.foldl (fun a c => 10 * a + decDigitVal c) 0

lemma digit_ne_of {c : Char} (h : isDecDigit c = true) (x : Char)
    (hx : isDecDigit x = false) : c ≠ x := by
  intro e
  subst e
  rw [h] at hx
  cases hx

lemma not_ws_of_digit {c : Char} (h : isDecDigit c = true) : isWSChar c = false := by
  simp only [isWSChar, Bool.or_eq_false_iff, decide_eq_false_iff_not]
  refine ⟨⟨⟨⟨⟨?_, ?_⟩, ?_⟩, ?_⟩, ?_⟩, ?_⟩ <;>
    (intro e; subst e; exact absurd h (by decide))

lemma trimWS_eq_self {cs : List Char} (h : ∀ c ∈ cs, isWSChar c = false) :
    trimWS cs = cs := by
  unfold trimWS
  have h1 : cs.dropWhile isWSChar = cs := by
    rw [List.dropWhile_eq_self_iff]
    intro hl
    rw [h _ (List.get_mem cs 0 hl)]
    exact Bool.false_ne_true
  rw [h1]
  have h2 : cs.reverse.dropWhile isWSChar = cs.reverse := by
    rw [List.dropWhile_eq_self_iff]
    intro hl
    rw [h _ (List.mem_reverse.mp (List.get_mem cs.reverse 0 hl))]
    exact Bool.false_ne_true
  rw [h2, List.reverse_reverse]

lemma dropFirstOccur_head (p : Char) (ps rest : List Char) :
    dropFirstOccur (p :: ps) ((p :: ps) ++ rest) = rest := by
  have hp : (p :: ps).isPrefixOf ((p :: ps) ++ rest) = true :=
    List.isPrefixOf_iff_prefix.mpr (List.prefix_append _ _)
  rw [List.cons_append] at hp
  show dropFirstOccur (p :: ps) (p :: (ps ++ rest)) = rest
  simp only [dropFirstOccur, hp, if_true]
  rw [← List.cons_append]
  exact List.drop_left _ _

lemma jsReplaceFirst_tag (tag s : String) (c : Char) (cs : List Char)
    (h : tag.data = c :: cs) : jsReplaceFirst (tag ++ s) tag = s := by
  unfold jsReplaceFirst
  rw [String.data_append, h, dropFirstOccur_head]

lemma foldl_decDig (ds : List Char) (h : ∀ c ∈ ds, isDecDigit c = true) :
    ∀ a : Nat,
      ds.foldl (fun acc c =>
        match acc, decDig? c with
        | some x, some d => some (10 * x + d)
        | _, _ => none) (some a)
      = some (ds.foldl (fun x c => 10 * x + decDigitVal c) a) := by
  induction ds with
  | nil => intro a; rfl
  | cons c cs ih =>
    intro a
    have hc := h c (List.mem_cons_self _ _)
    simp only [List.foldl_cons, decDig?, hc, if_true]
    exact ih (fun x hx => h x (List.mem_cons_of_mem _ hx)) _

lemma parseDigits_dec (ds : List Char) (hne : ds ≠ []) (h : ∀ c ∈ ds, isDecDigit c = true) :
    parseDigits 10 decDig? ds = some (decValue ds) := by
  rw [parseDigits, if_neg (by simpa [List.isEmpty_iff] using hne)]
  exact foldl_decDig ds h 0

lemma jsBigInt_digits (ds : List Char) (hne : ds ≠ []) (h : ∀ c ∈ ds, isDecDigit c = true) :
    jsBigInt? (String.mk ds) = some ((decValue ds : Nat) : Int) := by
  have hdata : (String.mk ds).data = ds := rfl
  have htrim : trimWS ds = ds := trimWS_eq_self (fun c hc => not_ws_of_digit (h c hc))
  match ds, hne with
  | c :: rest, _ =>
    have hc := h c (List.mem_cons_self _ _)
    rw [jsBigInt?]
    rw [hdata, htrim]
    by_cases hc0 : c = '0'
    · subst hc0
      cases rest with
      | nil => rfl
      | cons d rest2 =>
        have hd := h d (List.mem_cons_of_mem _ (List.mem_cons_self _ _))
        have hx : (decide (d = 'x') || decide (d = 'X')) = false := by
          simp only [Bool.or_eq_false_iff, decide_eq_false_iff_not]
          exact ⟨digit_ne_of hd 'x' (by decide), digit_ne_of hd 'X' (by decide)⟩
        have ho : (decide (d = 'o') || decide (d = 'O')) = false := by
          simp only [Bool.or_eq_false_iff, decide_eq_false_iff_not]
          exact ⟨digit_ne_of hd 'o' (by decide), digit_ne_of hd 'O' (by decide)⟩
        have hb : (decide (d = 'b') || decide (d = 'B')) = false := by
          simp only [Bool.or_eq_false_iff, decide_eq_false_iff_not]
          exact ⟨digit_ne_of hd 'b' (by decide), digit_ne_of hd 'B' (by decide)⟩
        simp [hx, ho, hb, parseDigits_dec _ (by simp) h]
    · have h2 : c ≠ '-' := digit_ne_of hc '-' (by decide)
      have h3 : c ≠ '+' := digit_ne_of hc '+' (by decide)
      simp [hc0, h2, h3, parseDigits_dec _ (by simp) h]

/-- C4 (amended): the remote-id reduction of `syncSingleProduct` strips the
gid tag and converts the remainder with JS `BigInt`; every in-range decimal
digit suffix is converted exactly to its mathematical value, and every
suffix rejected by the BigInt string conversion raises a SyntaxError
instead of producing a value. -/
theorem gid_reduction_amended :
    (∀ ds : List Char, ds ≠ [] → (∀ c ∈ ds, isDecDigit c = true) →
      decValue ds < 2 ^ 63 →
      gidToId productGidTag (productGidTag ++ String.mk ds)
        = Except.ok ((decValue ds : Nat) : Int))
    ∧ (∀ s : String, jsBigInt? s = none →
      gidToId productGidTag (productGidTag ++ s)
        = Except.error "SyntaxError: cannot convert string to a BigInt") := by
  constructor
  · intro ds hne hd _
    rw [gidToId, jsReplaceFirst_tag productGidTag _ 'g' "id://shopify/Product/".data (by decide),
      jsBigInt_digits ds hne hd]
  · intro s hs
    rw [gidToId, jsReplaceFirst_tag productGidTag _ 'g' "id://shopify/Product/".data (by decide), hs]

/-- Witness for C4: the reduction at the concrete digit suffix 987654321
and at the non-numeric suffix "abc". -/
theorem gid_reduction_amended_witness :
    gidToId productGidTag
        (productGidTag ++ String.mk ['9', '8', '7', '6', '5', '4', '3', '2', '1'])
      = Except.ok ((decValue ['9', '8', '7', '6', '5', '4', '3', '2', '1'] : Nat) : Int)
    ∧ gidToId productGidTag (productGidTag ++ "abc")
      = Except.error "SyntaxError: cannot convert string to a BigInt" :=
  ⟨gid_reduction_amended.1 ['9', '8', '7', '6', '5', '4', '3', '2', '1']
      (by decide) (by decide) (by decide),
   gid_reduction_amended.2 "abc" (by decide)⟩

/-- C4 counterexample: the suffix "0xFF" is not a decimal digit string,
yet the reduction of `"gid://shopify/Product/0xFF"` produces the value 255
instead of raising an error, because JS `BigInt` also accepts hexadecimal
(and octal, binary, signed and whitespace-padded) integer literals, and
the empty suffix likewise yields 0. -/
theorem gid_reduction_counterexample :
    ("0xFF".data.all isDecDigit) = false
    ∧ gidToId productGidTag "gid://shopify/Product/0xFF" = Except.ok 255
    ∧ gidToId productGidTag "gid://shopify/Product/" = Except.ok 0 :=
  ⟨rfl, rfl, rfl⟩

/-! ## SyncLog state machine

One row per entity-type sync attempt, mutated in place by the four helper
methods at the bottom of `initial-sync.server.js`.  A field a helper does
not mention in its `data` object is left untouched; `none` in an optional
column means the column has never been written by the service (it sits at
its creation default). -/

/-- Status strings written by the SyncLog helpers. -/
inductive SyncStatus where
  | started
  | completed
  | failed
  deriving DecidableEq

/-- One SyncLog row, with the columns the service reads or writes. -/
structure SyncLogRow where
  shopId : Option Nat
  syncType : String
  entityType : String
  status : SyncStatus
  recordsProcessed : Option Nat
  recordsTotal : Option Nat
  completedAt : Option Nat
  errorMessage : Option String
  deriving DecidableEq

/-- `createSyncLog`: inserts a row with only `shopId`, `syncType`,
`entityType` and `status: 'started'`; every other column is left at its
creation default. -/
def createSyncLog (shopId : Option Nat) (entityType syncType : String) : SyncLogRow :=
  { shopId := shopId
    syncType := syncType
    entityType := entityType
    status := SyncStatus.started
    recordsProcessed := none
    recordsTotal := none
    completedAt := none
    errorMessage := none }

/-- `updateSyncLog`: per-page progress write, touching only
`recordsProcessed`. -/
def updateSyncLog (row : SyncLogRow) (recordsProcessed : Nat) : SyncLogRow :=
  { row with recordsProcessed := some recordsProcessed }

/-- `completeSyncLog`: terminal success write. -/
def completeSyncLog (row : SyncLogRow) (recordsProcessed recordsTotal now : Nat) :
    SyncLogRow :=
  { row with
    status := SyncStatus.completed
    recordsProcessed := some recordsProcessed
    recordsTotal := some recordsTotal
    completedAt := some now }

/-- `failSyncLog`: terminal failure write; note that it does not touch
`recordsProcessed`. -/
def failSyncLog (row : SyncLogRow) (errorMessage : String) (now : Nat) : SyncLogRow :=
  { row with
    status := SyncStatus.failed
    errorMessage := some errorMessage
    completedAt := some now }

/-- The spec's SyncLog invariant: `completedAt` is set exactly on the two
terminal statuses. -/
def syncLogInv (r : SyncLogRow) : Prop :=
  r.completedAt.isSome ↔ (r.status = SyncStatus.completed ∨ r.status = SyncStatus.failed)

/-- C8: every SyncLog operation establishes or preserves the invariant
that `completedAt` is set if and only if the status is completed or
failed, and an invariant row in the started state has no `completedAt`. -/
theorem synclog_completedAt_invariant :
    (∀ sid et st, syncLogInv (createSyncLog sid et st))
    ∧ (∀ r n, syncLogInv r → syncLogInv (updateSyncLog r n))
    ∧ (∀ r p t now, syncLogInv r → syncLogInv (completeSyncLog r p t now))
    ∧ (∀ r m now, syncLogInv r → syncLogInv (failSyncLog r m now))
    ∧ (∀ r, syncLogInv r → r.status = SyncStatus.started → r.completedAt = none) := by
  refine ⟨?_, ?_, ?_, ?_, ?_⟩
  · intro sid et st
    simp [syncLogInv, createSyncLog]
  · intro r n h
    simpa [syncLogInv, updateSyncLog] using h
  · intro r p t now h
    simp [syncLogInv, completeSyncLog]
  · intro r m now h
    simp [syncLogInv, failSyncLog]
  · intro r h hst
    rw [← Option.not_isSome_iff_eq_none]
    intro hs
    rcases h.mp hs with hc | hf
    · rw [hst] at hc; cases hc
    · rw [hst] at hf; cases hf

/-- Witness for C8: the invariant at a freshly created products log and
after a progress update on it. -/
theorem synclog_completedAt_invariant_witness :
    syncLogInv (updateSyncLog (createSyncLog (some 1) "products" "initial") 5)
    ∧ (createSyncLog (some 1) "products" "initial").completedAt = none :=
  ⟨synclog_completedAt_invariant.2.1 _ 5
      (synclog_completedAt_invariant.1 (some 1) "products" "initial"),
   synclog_completedAt_invariant.2.2.2.2 _
      (synclog_completedAt_invariant.1 (some 1) "products" "initial") rfl⟩

/-! ## Paginated entity-type sync loop

`syncProducts` and `syncCollections` share the same page loop verbatim:
create a `started` SyncLog, then `do { fetch page; process every record,
incrementing the in-memory counter; cursor := hasNextPage ? endCursor :
null; updateSyncLog(counter) } while (cursor)`, then `completeSyncLog`;
any throw inside the loop runs `failSyncLog` and rethrows.  The remote
fixture is a list of pages, each record of a page tagged with whether its
per-record sync call succeeds or throws (record processing is synchronous
and unguarded for products and collections). -/

/-- One remote page of a paginated fixture: the per-record outcomes and
the `pageInfo` descriptor. -/
structure PageFix where
  records : List Bool
  hasNextPage : Bool
  endCursor : Option String
  deriving DecidableEq

/-- JS truthiness of the `cursor` variable, which holds `null` or a
string; `null` and the empty string are falsy. -/
def jsTruthyCursor : Option String → Bool
  | none => false
  | some s => !s.isEmpty

/-- Process the records of one page in order, incrementing the counter
after each successful record; a throwing record aborts the page (the error
value carries the in-memory counter, which is never persisted). -/
def processPage : List Bool → Nat → Except Nat Nat
  | [], n => Except.ok n
  | r :: rs, n => if r then processPage rs (n + 1) else Except.error n

/-- Outcome of one entity-type sync run: the final SyncLog row, how many
page requests were issued, and whether the run rethrew an error. -/
structure PagedRun where
  log : SyncLogRow
  pagesFetched : Nat
  threw : Bool
  deriving DecidableEq

/-- The page loop body, one iteration per fixture page.  An exhausted
fixture on a truthy cursor models the remote read itself throwing. -/
def runPagesAux (now : Nat) : List PageFix → Nat → SyncLogRow → Nat → PagedRun
  | [], _, log, fetched =>
    { log := failSyncLog log "remote error" now, pagesFetched := fetched + 1, threw := true }
  | p :: rest, total, log, fetched =>
    match processPage p.records total with
    | Except.error _ =>
      { log := failSyncLog log "record error" now, pagesFetched := fetched + 1, threw := true }
    | Except.ok total2 =>
      let log2 := updateSyncLog log total2
      let cursor := if p.hasNextPage then p.endCursor else none
      if jsTruthyCursor cursor then runPagesAux now rest total2 log2 (fetched + 1)
      else
        { log := completeSyncLog log2 total2 total2 now
          pagesFetched := fetched + 1
          threw := false }

/-- One entity-type sync (`syncProducts` / `syncCollections`): create the
SyncLog in `started` state, then run the page loop against the fixture. -/
def runPagedSync (now : Nat) (shopId : Option Nat) (entityType : String)
    (pages : List PageFix) : PagedRun :=
  runPagesAux now pages 0 (createSyncLog shopId entityType "initial") 0

lemma processPage_all_ok (rs : List Bool) (h : ∀ r ∈ rs, r = true) :
    ∀ n, processPage rs n = Except.ok (n + rs.length) := by
  induction rs with
  | nil => intro n; rfl
  | cons r rest ih =>
    intro n
    have hr := h r (List.mem_cons_self _ _)
    simp only [processPage, hr, if_true]
    rw [ih (fun x hx => h x (List.mem_cons_of_mem _ hx)) (n + 1)]
    congr 1
    simp [Nat.add_assoc, Nat.add_comm 1]

lemma runPagesAux_stops (now : Nat) (front : List PageFix) (lastP : PageFix) (extra : List PageFix)
    (hfront : ∀ p ∈ front, p.hasNextPage = true ∧ jsTruthyCursor p.endCursor = true
      ∧ ∀ r ∈ p.records, r = true)
    (hlast : lastP.hasNextPage = false) (hlrec : ∀ r ∈ lastP.records, r = true) :
    ∀ total log fetched,
      (runPagesAux now (front ++ lastP :: extra) total log fetched).pagesFetched
        = fetched + front.length + 1
      ∧ (runPagesAux now (front ++ lastP :: extra) total log fetched).log.status
        = SyncStatus.completed
      ∧ (runPagesAux now (front ++ lastP :: extra) total log fetched).threw = false := by
  induction front with
  | nil =>
    intro total log fetched
    simp only [List.nil_append, runPagesAux, processPage_all_ok lastP.records hlrec total,
      hlast, if_false, jsTruthyCursor]
    exact ⟨by simp, rfl, rfl⟩
  | cons p front2 ih =>
    intro total log fetched
    obtain ⟨hnext, hcur, hrec⟩ := hfront p (List.mem_cons_self _ _)
    simp only [List.cons_append, runPagesAux, processPage_all_ok p.records hrec total,
      hnext, if_true, hcur, List.append_eq]
    have := ih (fun q hq => hfront q (List.mem_cons_of_mem _ hq)) (total + p.records.length)
      (updateSyncLog log (total + p.records.length)) (fetched + 1)
    refine ⟨?_, this.2⟩
    rw [this.1]
    simp [List.length_cons, Nat.add_assoc, Nat.add_comm 1]

/-- C9: against a fixture whose first N-1 pages answer hasNextPage true
with a truthy end cursor and whose Nth page answers hasNextPage false
(records all processed without error), the entity-type sync loop issues
exactly N page requests, whatever further pages the remote could have
served after the Nth. -/
theorem pagination_termination (now : Nat) (sid : Option Nat) (et : String)
    (front : List PageFix) (lastP : PageFix) (extra : List PageFix)
    (hfront : ∀ p ∈ front, p.hasNextPage = true ∧ jsTruthyCursor p.endCursor = true
      ∧ ∀ r ∈ p.records, r = true)
    (hlast : lastP.hasNextPage = false) (hlrec : ∀ r ∈ lastP.records, r = true) :
    (runPagedSync now sid et (front ++ lastP :: extra)).pagesFetched = front.length + 1 := by
  have h := runPagesAux_stops now front lastP extra hfront hlast hlrec 0
    (createSyncLog sid et "initial") 0
  simpa [runPagedSync] using h.1

/-- Witness for C9: a three-page fixture (hasNextPage true, true, false)
with two unread pages stacked after it fetches exactly three pages. -/
theorem pagination_termination_witness :
    (runPagedSync 0 (some 1) "products"
      ([⟨[true], true, some "c1"⟩, ⟨[true, true], true, some "c2"⟩]
        ++ ⟨[true], false, none⟩
          :: [⟨[true], true, some "c3"⟩, ⟨[true], false, none⟩])).pagesFetched
      = 2 + 1 :=
  pagination_termination 0 (some 1) "products" _ _ _ (by decide) rfl (by decide)

/-- Fixture for C1 as the remote would serve it: a single page holding all
five product records, the third of which throws during its synchronous
per-record sync. -/
def c1SinglePage : List PageFix := [⟨[true, true, false, true, true], false, none⟩]

/-- Fixture for the amended C1: the first two records arrive on a
completed first page, the throwing third record on the second page. -/
def c1TwoPages : List PageFix :=
  [⟨[true, true], true, some "c"⟩, ⟨[false, true, true], false, none⟩]

/-- C1 counterexample: a products sync that throws on record 3 of 5 (after
two records were processed in memory) on a single remote page ends with
status failed but with recordsProcessed never written — `updateSyncLog`
only runs after a fully processed page and `failSyncLog` does not persist
the counter — so the SyncLog does not show recordsProcessed == 2. -/
theorem partial_failure_counterexample :
    (runPagedSync 9 (some 1) "products" c1SinglePage).log.status = SyncStatus.failed
    ∧ (runPagedSync 9 (some 1) "products" c1SinglePage).log.recordsProcessed ≠ some 2
    ∧ (runPagedSync 9 (some 1) "products" c1SinglePage).log.recordsProcessed = none := by
  refine ⟨rfl, ?_, rfl⟩
  decide

/-- C1 (amended): a products sync that throws on record 3 of 5 ends in
status failed with recordsProcessed equal to the counter persisted after
the last fully processed page — 2 when the first two records lie on an
earlier completed page than the throwing record, and never written at all
when all five records share one page — while an independently successful
collections sync ends in status completed. -/
theorem partial_failure_amended :
    ((runPagedSync 9 (some 1) "products" c1TwoPages).log.status = SyncStatus.failed
      ∧ (runPagedSync 9 (some 1) "products" c1TwoPages).log.recordsProcessed = some 2
      ∧ (runPagedSync 9 (some 1) "products" c1TwoPages).threw = true)
    ∧ ((runPagedSync 9 (some 1) "products" c1SinglePage).log.status = SyncStatus.failed
      ∧ (runPagedSync 9 (some 1) "products" c1SinglePage).log.recordsProcessed = none)
    ∧ (∀ now sid (front : List PageFix) (lastP : PageFix),
      (∀ p ∈ front, p.hasNextPage = true ∧ jsTruthyCursor p.endCursor = true
        ∧ ∀ r ∈ p.records, r = true) →
      lastP.hasNextPage = false → (∀ r ∈ lastP.records, r = true) →
      (runPagedSync now sid "collections" (front ++ [lastP])).log.status
        = SyncStatus.completed) := by
  refine ⟨⟨rfl, rfl, rfl⟩, ⟨rfl, rfl⟩, ?_⟩
  intro now sid front lastP hfront hlast hlrec
  have h := runPagesAux_stops now front lastP [] hfront hlast hlrec 0
    (createSyncLog sid "collections" "initial") 0
  simpa [runPagedSync] using h.2.1

/-- Witness for C1 (amended): the collections clause at a concrete
two-page all-successful fixture. -/
theorem partial_failure_amended_witness :
    (runPagedSync 9 (some 1) "collections"
      ([⟨[true, true], true, some "k"⟩] ++ [⟨[true], false, none⟩])).log.status
      = SyncStatus.completed :=
  partial_failure_amended.2.2 9 (some 1) [⟨[true, true], true, some "k"⟩]
    ⟨[true], false, none⟩ (by decide) rfl (by decide)

/-! ## Top-level orchestration (`syncAllData`)

Shop sync runs first and is blocking; on its success the products and
collections syncs are launched together and joined with
`Promise.allSettled`, after which the tenant row's `lastSyncAt` is
stamped and the run reports success; a shop-sync throw is caught and
reported as failure. -/

/-- Result of one `syncAllData` run: the returned payload plus the durable
side effects (final per-entity SyncLog rows, tenant `lastSyncAt`). -/
structure SyncAllResult where
  success : Bool
  message : Option String
  error : Option String
  prodLog : Option SyncLogRow
  colLog : Option SyncLogRow
  lastSyncAt : Option Nat
  deriving DecidableEq

/-- `syncAllData` over a shop-sync outcome (carrying the tenant id on
success) and remote fixtures for the two entity-type syncs. -/
def syncAllData (now : Nat) (shopSync : Except String Nat)
    (prodPages colPages : List PageFix) : SyncAllResult :=
  match shopSync with
  | Except.error e =>
    { success := false, message := none, error := some e
      prodLog := none, colLog := none, lastSyncAt := none }
  | Except.ok shopId =>
    let prod := runPagedSync now (some shopId) "products" prodPages
    let col := runPagedSync now (some shopId) "collections" colPages
    { success := true
      message := some "Initial sync completed successfully (products, collections, and shop data only)"
      error := none
      prodLog := some prod.log
      colLog := some col.log
      lastSyncAt := some now }

/-- C6: once the shop sync has succeeded, both entity-type syncs settle —
even when the products promise rejects, the collections SyncLog is exactly
what the collections sync alone produces — and the run then stamps the
tenant's lastSyncAt and reports success regardless of per-entity-type
failures. -/
theorem group_isolation (now shopId : Nat) (prodPages colPages : List PageFix)
    (hreject : (runPagedSync now (some shopId) "products" prodPages).threw = true) :
    (syncAllData now (Except.ok shopId) prodPages colPages).success = true
    ∧ (syncAllData now (Except.ok shopId) prodPages colPages).lastSyncAt = some now
    ∧ (syncAllData now (Except.ok shopId) prodPages colPages).colLog
      = some (runPagedSync now (some shopId) "collections" colPages).log
    ∧ (syncAllData now (Except.ok shopId) prodPages colPages).prodLog
      = some (runPagedSync now (some shopId) "products" prodPages).log := by
  refine ⟨rfl, rfl, rfl, rfl⟩

/-- Fixture for the C6 witness: a products run whose only record throws. -/
def c6FailingPages : List PageFix := [⟨[false], false, none⟩]

/-- Fixture for the C6 witness: a collections run that succeeds. -/
def c6OkPages : List PageFix := [⟨[true, true], false, none⟩]

/-- Witness for C6: with a rejecting products run and a successful
collections run, the whole run still reports success, stamps lastSyncAt
and records the independent collections outcome. -/
theorem group_isolation_witness :
    (runPagedSync 3 (some 1) "products" c6FailingPages).threw = true
    ∧ (syncAllData 3 (Except.ok 1) c6FailingPages c6OkPages).success = true
    ∧ (syncAllData 3 (Except.ok 1) c6FailingPages c6OkPages).lastSyncAt = some 3
    ∧ (syncAllData 3 (Except.ok 1) c6FailingPages c6OkPages).colLog
      = some (runPagedSync 3 (some 1) "collections" c6OkPages).log :=
  ⟨by decide,
   (group_isolation 3 1 c6FailingPages c6OkPages (by decide)).1,
   (group_isolation 3 1 c6FailingPages c6OkPages (by decide)).2.1,
   (group_isolation 3 1 c6FailingPages c6OkPages (by decide)).2.2.1⟩

/-! ## Entity rows and upserts

Rows carry the columns `initial-sync.server.js` reads or writes; Prisma
`upsert` keyed on a unique column is embedded as: find the row with that
key, apply the `update` field set to it if found, otherwise append a fresh
row built from the `create` field set under the next local primary key.
Date values are carried as abstract numeric timestamps (`new Date(x)` is
injective on them); `new Date()` with no argument is the `now` parameter
threaded through each operation. -/

/-- JS `toLowerCase` on the ASCII status strings the source feeds it. -/
def jsToLower (s : String) : String := String.map Char.toLower s

/-- Fields of one raw product record read by `syncSingleProduct` for the
parent row. -/
structure ProductData where
  id : String
  title : String
  handle : String
  vendor : String
  status : String
  createdAt : Nat
  updatedAt : Nat
  deriving DecidableEq

/-- One local Product row. -/
structure ProductRow where
  id : Nat
  productId : Int
  shopId : Option Nat
  title : String
  handle : String
  vendor : String
  status : String
  createdAt : Nat
  updatedAt : Nat
  deriving DecidableEq

/-- The Product table plus its primary-key sequence. -/
structure ProductTable where
  rows : List ProductRow
  nextId : Nat
  deriving DecidableEq

/-- Unique-key test for `where: { productId }`. -/
def productKey (k : Int) (r : ProductRow) : Bool := decide (r.productId = k)

/-- The `update` field set of the product upsert: every value derives from
the raw record (including `updatedAt: new Date(productData.updatedAt)`). -/
def productApplyUpdate (d : ProductData) (r : ProductRow) : ProductRow :=
  { r with
    title := d.title
    handle := d.handle
    vendor := d.vendor
    status := jsToLower d.status
    updatedAt := d.updatedAt }

/-- `db.product.upsert({ where: { productId }, update, create })`. -/
def productUpsert (k : Int) (shopId : Option Nat) (d : ProductData) (t : ProductTable) :
    ProductRow × ProductTable :=
  match t.rows.find? (productKey k) with
  | some r =>
    (productApplyUpdate d r,
     { t with rows := t.rows.map (fun x => if productKey k x then productApplyUpdate d x else x) })
  | none =>
    let r : ProductRow :=
      { id := t.nextId
        productId := k
        shopId := shopId
        title := d.title
        handle := d.handle
        vendor := d.vendor
        status := jsToLower d.status
        createdAt := d.createdAt
        updatedAt := d.updatedAt }
    (r, { rows := t.rows ++ [r], nextId := t.nextId + 1 })

/-- Fields of one raw collection record read by `syncSingleCollection`. -/
structure CollectionData where
  id : String
  handle : String
  title : String
  productGids : List String
  deriving DecidableEq

/-- One local Collection row. -/
structure CollectionRow where
  id : Nat
  collectionId : Int
  shopId : Option Nat
  handle : String
  title : String
  createdAt : Nat
  updatedAt : Nat
  deriving DecidableEq

/-- Local state touched by `syncSingleCollection`: the Product table it
reads, the Collection table, and the CollectionProduct join (pairs of
local collection id and local product id, the join's composite primary
key). -/
structure CollectionState where
  products : List ProductRow
  collections : List CollectionRow
  collectionProducts : List (Nat × Nat)
  nextCollectionId : Nat
  deriving DecidableEq

/-- Unique-key test for `where: { collectionId }`. -/
def collectionKey (k : Int) (r : CollectionRow) : Bool := decide (r.collectionId = k)

/-- The `update` field set of the collection upsert: note
`updatedAt: new Date()` — the current wall-clock time, not a value from
the record. -/
def collectionApplyUpdate (handle title : String) (now : Nat) (r : CollectionRow) :
    CollectionRow :=
  { r with handle := handle, title := title, updatedAt := now }

/-- `db.collection.upsert({ where: { collectionId }, update, create })`;
`create` stamps both timestamps with `new Date()`.  The operation touches
only the Collection table and its primary-key sequence. -/
def collectionUpsert (k : Int) (shopId : Option Nat) (handle title : String) (now : Nat)
    (tbl : List CollectionRow) (seq : Nat) : CollectionRow × List CollectionRow × Nat :=
  match tbl.find? (collectionKey k) with
  | some r =>
    (collectionApplyUpdate handle title now r,
     tbl.map (fun x =>
       if collectionKey k x then collectionApplyUpdate handle title now x else x),
     seq)
  | none =>
    let r : CollectionRow :=
      { id := seq
        collectionId := k
        shopId := shopId
        handle := handle
        title := title
        createdAt := now
        updatedAt := now }
    (r, tbl ++ [r], seq + 1)

/-- The gid literal stripped for collections. -/
def collectionGidTag : String := "gid://shopify/Collection/"

/-- Member loop of `syncSingleCollection`: parse each member product gid
(a failed conversion throws), look the product up by its remote id, and
build a CollectionProduct link only when a local Product row exists. -/
def linkMembers (colId : Nat) (products : List ProductRow) :
    List String → Except String (List (Nat × Nat))
  | [] => Except.ok []
  | g :: gs =>
    match gidToId productGidTag g with
    | Except.error e => Except.error e
    | Except.ok pk =>
      match products.find? (productKey pk) with
      | some p => (linkMembers colId products gs).map (fun rest => (colId, p.id) :: rest)
      | none => linkMembers colId products gs

/-- `syncSingleCollection`: upsert the collection row by remote id, run
`collectionProduct.deleteMany({ where: { collectionId: collection.id } })`,
then re-create links for the remote members that resolve to a local
Product row. -/
def syncSingleCollection (shopId : Option Nat) (now : Nat) (d : CollectionData)
    (s : CollectionState) : Except String CollectionState :=
  match gidToId collectionGidTag d.id with
  | Except.error e => Except.error e
  | Except.ok k =>
    let u := collectionUpsert k shopId d.handle d.title now s.collections s.nextCollectionId
    let cleared := s.collectionProducts.filter (fun cp => decide (cp.1 ≠ u.1.id))
    match linkMembers u.1.id s.products d.productGids with
    | Except.error e => Except.error e
    | Except.ok links =>
      Except.ok { s with
        collections := u.2.1
        nextCollectionId := u.2.2
        collectionProducts := cleared ++ links }

lemma productApplyUpdate_key (k : Int) (d : ProductData) (x : ProductRow) :
    productKey k (productApplyUpdate d x) = productKey k x := rfl

lemma productApplyUpdate_idem (d : ProductData) (r : ProductRow) :
    productApplyUpdate d (productApplyUpdate d r) = productApplyUpdate d r := rfl

lemma productUpdateMap_comp (k : Int) (d : ProductData) :
    ((fun x => if productKey k x then productApplyUpdate d x else x)
      ∘ (fun x => if productKey k x then productApplyUpdate d x else x))
    = (fun x => if productKey k x then productApplyUpdate d x else x) := by
  funext x
  by_cases hx : productKey k x = true
  · simp [Function.comp, hx, productApplyUpdate_key, productApplyUpdate_idem]
  · simp [Function.comp, hx]

lemma productKey_comp_update (k : Int) (d : ProductData) :
    (productKey k ∘ (fun x => if productKey k x then productApplyUpdate d x else x))
    = productKey k := by
  funext x
  by_cases hx : productKey k x = true
  · simp [Function.comp, hx, productApplyUpdate_key]
  · simp [Function.comp, hx]

/-- C2 counterexample: the collection upsert's update payload writes
`updatedAt: new Date()`, so a second call with the identical remote key
and identical field values at a later instant mutates the row — it is not
an observable no-op — even though it creates no second primary key and
leaves id and createdAt untouched. -/
theorem upsert_idempotence_counterexample :
    (collectionUpsert 5 (some 1) "h" "t" 1
        (collectionUpsert 5 (some 1) "h" "t" 0 [] 0).2.1
        (collectionUpsert 5 (some 1) "h" "t" 0 [] 0).2.2).2.1
      ≠ (collectionUpsert 5 (some 1) "h" "t" 0 [] 0).2.1
    ∧ ((collectionUpsert 5 (some 1) "h" "t" 1
        (collectionUpsert 5 (some 1) "h" "t" 0 [] 0).2.1
        (collectionUpsert 5 (some 1) "h" "t" 0 [] 0).2.2).2.1).map
        (fun r => (r.id, r.createdAt))
      = ((collectionUpsert 5 (some 1) "h" "t" 0 [] 0).2.1).map
        (fun r => (r.id, r.createdAt)) := by
  refine ⟨?_, ?_⟩ <;> decide

/-- C2 (amended): the product upsert — whose update payload derives
entirely from the record — is fully idempotent: a second call with the
same remote key and field values changes nothing at all; any upsert with
at most one existing row under the key leaves exactly one row under it,
the returned row's fields equal the input, and an update never touches the
matched row's primary key or creation timestamp (nor the key sequence).
The collection upsert also preserves primary key, creation timestamp and
row count on update, but stamps `updatedAt` with the wall clock, so only
its timestamp column can differ between identical calls. -/
theorem upsert_idempotence_amended :
    (∀ (k : Int) sid d t, productUpsert k sid d (productUpsert k sid d t).2
      = productUpsert k sid d t)
    ∧ (∀ (k : Int) sid d t, t.rows.countP (productKey k) ≤ 1 →
        (productUpsert k sid d t).2.rows.countP (productKey k) = 1)
    ∧ (∀ (k : Int) sid d t,
        (productUpsert k sid d t).1.title = d.title
        ∧ (productUpsert k sid d t).1.handle = d.handle
        ∧ (productUpsert k sid d t).1.vendor = d.vendor
        ∧ (productUpsert k sid d t).1.status = jsToLower d.status
        ∧ (productUpsert k sid d t).1.updatedAt = d.updatedAt)
    ∧ (∀ (k : Int) sid d t r0, t.rows.find? (productKey k) = some r0 →
        (productUpsert k sid d t).1.id = r0.id
        ∧ (productUpsert k sid d t).1.createdAt = r0.createdAt
        ∧ (productUpsert k sid d t).2.nextId = t.nextId)
    ∧ (∀ (k : Int) sid hdl ttl now tbl seq r0,
        tbl.find? (collectionKey k) = some r0 →
        (collectionUpsert k sid hdl ttl now tbl seq).1.id = r0.id
        ∧ (collectionUpsert k sid hdl ttl now tbl seq).1.createdAt = r0.createdAt
        ∧ (collectionUpsert k sid hdl ttl now tbl seq).2.1.length = tbl.length) := by
  refine ⟨?_, ?_, ?_, ?_, ?_⟩
  · intro k sid d t
    cases h : t.rows.find? (productKey k) with
    | none =>
      have hall := List.find?_eq_none.mp h
      have hkey : productKey k
          { id := t.nextId, productId := k, shopId := sid, title := d.title,
            handle := d.handle, vendor := d.vendor, status := jsToLower d.status,
            createdAt := d.createdAt, updatedAt := d.updatedAt } = true := by
        simp [productKey]
      simp only [productUpsert, h]
      rw [List.find?_append, h]
      simp only [Option.none_or, List.find?_cons, hkey]
      rw [List.map_append, List.map_congr_left (fun x hx => if_neg (by simp [hall x hx]))]
      simp [hkey, productApplyUpdate]
    | some r =>
      have hr : productKey k r = true := List.find?_some h
      simp only [productUpsert, h]
      rw [List.find?_map, productKey_comp_update, h]
      simp [hr, productApplyUpdate_idem, List.map_map, productUpdateMap_comp]
  · intro k sid d t hle
    cases h : t.rows.find? (productKey k) with
    | none =>
      have hall := List.find?_eq_none.mp h
      simp only [productUpsert, h]
      rw [List.countP_append]
      have h0 : t.rows.countP (productKey k) = 0 := by
        rw [List.countP_eq_zero]
        exact hall
      rw [h0]
      simp [List.countP, List.countP.go, productKey]
    | some r =>
      have hpos : 0 < t.rows.countP (productKey k) :=
        List.countP_pos_iff.mpr ⟨r, List.mem_of_find?_eq_some h, List.find?_some h⟩
      simp only [productUpsert, h]
      rw [List.countP_map, productKey_comp_update]
      exact Nat.le_antisymm hle hpos
  · intro k sid d t
    cases h : t.rows.find? (productKey k) <;>
      simp [productUpsert, h, productApplyUpdate]
  · intro k sid d t r0 h
    simp [productUpsert, h, productApplyUpdate]
  · intro k sid hdl ttl now tbl seq r0 h
    simp [collectionUpsert, h, collectionApplyUpdate]

lemma collectionApplyUpdate_key (k : Int) (hdl ttl : String) (now : Nat) (x : CollectionRow) :
    collectionKey k (collectionApplyUpdate hdl ttl now x) = collectionKey k x := rfl

lemma collectionApplyUpdate_idem (hdl ttl : String) (now : Nat) (r : CollectionRow) :
    collectionApplyUpdate hdl ttl now (collectionApplyUpdate hdl ttl now r)
      = collectionApplyUpdate hdl ttl now r := rfl

lemma collectionUpdateMap_comp (k : Int) (hdl ttl : String) (now : Nat) :
    ((fun x => if collectionKey k x then collectionApplyUpdate hdl ttl now x else x)
      ∘ (fun x => if collectionKey k x then collectionApplyUpdate hdl ttl now x else x))
    = (fun x => if collectionKey k x then collectionApplyUpdate hdl ttl now x else x) := by
  funext x
  by_cases hx : collectionKey k x = true
  · simp [Function.comp, hx, collectionApplyUpdate_key, collectionApplyUpdate_idem]
  · simp [Function.comp, hx]

lemma collectionKey_comp_update (k : Int) (hdl ttl : String) (now : Nat) :
    (collectionKey k ∘ (fun x => if collectionKey k x then collectionApplyUpdate hdl ttl now x else x))
    = collectionKey k := by
  funext x
  by_cases hx : collectionKey k x = true
  · simp [Function.comp, hx, collectionApplyUpdate_key]
  · simp [Function.comp, hx]

lemma collectionUpsert_idem (k : Int) (sid : Option Nat) (hdl ttl : String) (now : Nat)
    (tbl : List CollectionRow) (seq : Nat) :
    collectionUpsert k sid hdl ttl now
      (collectionUpsert k sid hdl ttl now tbl seq).2.1
      (collectionUpsert k sid hdl ttl now tbl seq).2.2
    = collectionUpsert k sid hdl ttl now tbl seq := by
  cases h : tbl.find? (collectionKey k) with
  | none =>
    have hall := List.find?_eq_none.mp h
    have hkey : collectionKey k
        { id := seq, collectionId := k, shopId := sid, handle := hdl, title := ttl,
          createdAt := now, updatedAt := now } = true := by
      simp [collectionKey]
    simp only [collectionUpsert, h]
    rw [List.find?_append, h]
    simp only [Option.none_or, List.find?_cons, hkey]
    rw [List.map_append, List.map_congr_left (fun x hx => if_neg (by simp [hall x hx]))]
    simp [hkey, collectionApplyUpdate]
  | some r =>
    have hr : collectionKey k r = true := List.find?_some h
    simp only [collectionUpsert, h]
    rw [List.find?_map, collectionKey_comp_update, h]
    simp [hr, collectionApplyUpdate_idem, List.map_map, collectionUpdateMap_comp]

/-- Specification-side description of the links the member loop of
`syncSingleCollection` creates: one `(collection, product)` pair per
remote member whose gid converts and whose Product row exists locally;
members with no local row contribute nothing. -/
def resolvedMemberLinks (colId : Nat) (products : List ProductRow) (gs : List String) :
    List (Nat × Nat) :=
  gs.filterMap (fun g =>
    match gidToId productGidTag g with
    | Except.ok pk => (products.find? (productKey pk)).map (fun p => (colId, p.id))
    | Except.error _ => none)

lemma resolvedMemberLinks_fst (colId : Nat) (products : List ProductRow) (gs : List String) :
    ∀ x ∈ resolvedMemberLinks colId products gs, x.1 = colId := by
  intro x hx
  rw [resolvedMemberLinks, List.mem_filterMap] at hx
  obtain ⟨g, _, hfg⟩ := hx
  cases hg : gidToId productGidTag g with
  | error e => rw [hg] at hfg; cases hfg
  | ok pk =>
    rw [hg] at hfg
    dsimp only at hfg
    cases hf : products.find? (productKey pk) with
    | none => rw [hf] at hfg; cases hfg
    | some p =>
      rw [hf] at hfg
      cases hfg
      rfl

lemma linkMembers_ok (colId : Nat) (products : List ProductRow) :
    ∀ gs : List String, (∀ g ∈ gs, ∃ pk, gidToId productGidTag g = Except.ok pk) →
      linkMembers colId products gs = Except.ok (resolvedMemberLinks colId products gs) := by
  intro gs
  induction gs with
  | nil => intro _; rfl
  | cons g gs ih =>
    intro h
    obtain ⟨pk, hpk⟩ := h g (List.mem_cons_self _ _)
    have ih2 := ih (fun x hx => h x (List.mem_cons_of_mem _ hx))
    cases hf : products.find? (productKey pk) with
    | none =>
      simp only [linkMembers, hpk, hf, resolvedMemberLinks, List.filterMap_cons,
        Option.map_none]
      simp only [resolvedMemberLinks] at ih2
      exact ih2
    | some p =>
      simp only [linkMembers, hpk, hf, resolvedMemberLinks, List.filterMap_cons,
        Option.map_some]
      rw [ih2]
      rfl

lemma filter_eq_of_ne_cleared (colId : Nat) (L : List (Nat × Nat)) :
    (L.filter (fun cp => decide (cp.1 ≠ colId))).filter (fun cp => decide (cp.1 = colId))
      = [] := by
  rw [List.filter_filter, List.filter_eq_nil_iff]
  intro a _
  by_cases e : a.1 = colId <;> simp [e]

lemma filter_all_eq (colId : Nat) (links : List (Nat × Nat))
    (h : ∀ x ∈ links, x.1 = colId) :
    links.filter (fun cp => decide (cp.1 = colId)) = links :=
  List.filter_eq_self.mpr (fun a ha => by simp [h a ha])

lemma filter_other_cleared (colId c : Nat) (hc : c ≠ colId) (L : List (Nat × Nat)) :
    (L.filter (fun cp => decide (cp.1 ≠ colId))).filter (fun cp => decide (cp.1 = c))
      = L.filter (fun cp => decide (cp.1 = c)) := by
  rw [List.filter_filter]
  refine List.filter_congr ?_
  intro a _
  by_cases e : a.1 = c
  · simp [e, hc]
  · simp [e]

lemma filter_other_links (colId c : Nat) (hc : c ≠ colId) (links : List (Nat × Nat))
    (h : ∀ x ∈ links, x.1 = colId) :
    links.filter (fun cp => decide (cp.1 = c)) = [] := by
  rw [List.filter_eq_nil_iff]
  intro a ha
  simp [h a ha, Ne.symm hc]

lemma filter_ne_idem (colId : Nat) (L : List (Nat × Nat)) :
    (L.filter (fun cp => decide (cp.1 ≠ colId))).filter (fun cp => decide (cp.1 ≠ colId))
      = L.filter (fun cp => decide (cp.1 ≠ colId)) := by
  rw [List.filter_filter]
  exact List.filter_congr (fun a _ => Bool.and_self _)

lemma filter_ne_links (colId : Nat) (links : List (Nat × Nat))
    (h : ∀ x ∈ links, x.1 = colId) :
    links.filter (fun cp => decide (cp.1 ≠ colId)) = [] := by
  rw [List.filter_eq_nil_iff]
  intro a ha
  simp [h a ha]

/-- C10: `syncSingleCollection` replaces a collection's product links
wholesale.  On a successful run the links recorded for the upserted
collection are exactly the remote members resolving to a local Product
row (members without a local row are silently omitted), links of every
other collection are untouched, and re-running on the result is a fixed
point — the same link set again. -/
theorem collection_links_wholesale (sid : Option Nat) (now : Nat) (d : CollectionData)
    (s : CollectionState) (k : Int) (u : CollectionRow × List CollectionRow × Nat)
    (hk : gidToId collectionGidTag d.id = Except.ok k)
    (hu : collectionUpsert k sid d.handle d.title now s.collections s.nextCollectionId = u)
    (hmem : ∀ g ∈ d.productGids, ∃ pk, gidToId productGidTag g = Except.ok pk) :
    (∃ s1, syncSingleCollection sid now d s = Except.ok s1)
    ∧ (∀ s1, syncSingleCollection sid now d s = Except.ok s1 →
        (s1.collectionProducts.filter (fun cp => decide (cp.1 = u.1.id))
          = resolvedMemberLinks u.1.id s.products d.productGids)
        ∧ (∀ c : Nat, c ≠ u.1.id →
            s1.collectionProducts.filter (fun cp => decide (cp.1 = c))
            = s.collectionProducts.filter (fun cp => decide (cp.1 = c)))
        ∧ syncSingleCollection sid now d s1 = Except.ok s1) := by
  have hlinks := linkMembers_ok u.1.id s.products d.productGids hmem
  have hrun : syncSingleCollection sid now d s = Except.ok
      { s with
        collections := u.2.1
        nextCollectionId := u.2.2
        collectionProducts :=
          s.collectionProducts.filter (fun cp => decide (cp.1 ≠ u.1.id))
          ++ resolvedMemberLinks u.1.id s.products d.productGids } := by
    simp only [syncSingleCollection, hk, hu, hlinks]
  refine ⟨⟨_, hrun⟩, ?_⟩
  intro s1 h1
  rw [hrun] at h1
  injection h1 with h1
  subst h1
  have hfst := resolvedMemberLinks_fst u.1.id s.products d.productGids
  refine ⟨?_, ?_, ?_⟩
  · dsimp only
    rw [List.filter_append, filter_eq_of_ne_cleared, filter_all_eq _ _ hfst,
      List.nil_append]
  · intro c hc
    dsimp only
    rw [List.filter_append, filter_other_cleared _ _ hc, filter_other_links _ _ hc _ hfst,
      List.append_nil]
  · have hu2 : collectionUpsert k sid d.handle d.title now u.2.1 u.2.2 = u := by
      rw [← hu]
      exact collectionUpsert_idem k sid d.handle d.title now s.collections s.nextCollectionId
    have hlinks2 := linkMembers_ok u.1.id s.products d.productGids hmem
    simp only [syncSingleCollection, hk, hu2, hlinks2]
    congr 1
    rw [List.filter_append, filter_ne_idem, filter_ne_links _ _ hfst, List.append_nil]

/-- Concrete state for the C10 witness: one local Product with remote id
11, no collections yet, and one link belonging to another collection. -/
def c10State : CollectionState :=
  { products := [⟨1, 11, some 1, "A", "a", "v", "active", 0, 0⟩]
    collections := []
    collectionProducts := [(99, 5)]
    nextCollectionId := 4 }

/-- Concrete remote collection for the C10 witness: two members, of which
only remote product 11 has a local row. -/
def c10Data : CollectionData :=
  ⟨"gid://shopify/Collection/7", "h", "t",
    ["gid://shopify/Product/11", "gid://shopify/Product/22"]⟩

/-- Witness for C10: the wholesale-replacement theorem applied at a
concrete collection with one resolvable and one unresolvable member. -/
theorem collection_links_wholesale_witness :
    ∃ s1, syncSingleCollection (some 1) 2 c10Data c10State = Except.ok s1 :=
  (collection_links_wholesale (some 1) 2 c10Data c10State 7
    (collectionUpsert 7 (some 1) c10Data.handle c10Data.title 2
      c10State.collections c10State.nextCollectionId)
    rfl rfl
    (by
      intro g hg
      simp only [c10Data, List.mem_cons, List.not_mem_nil, or_false] at hg
      rcases hg with rfl | rfl
      · exact ⟨11, rfl⟩
      · exact ⟨22, rfl⟩)).1

/-! ## Order sync (`syncSingleOrder`)

Modelled on the fields the function reads (note the source reads
`orderData.orderNumber`, `financialStatus` and `fulfillmentStatus` even
though the `syncOrders` query selects `name` and neither status field, so
the latter two arrive as JS `undefined` — here `Option`).  Monetary
amounts are the platform's plain decimal numeral strings; `parseFloat` is
embedded for those numerals (sign, digits, optional fraction, trailing
garbage ignored), with `none` standing for NaN/null. -/

/-- JS `parseFloat` on the decimal numerals the platform emits. -/
def jsParseFloat? (s : String) : Option Rat :=
  let cs := s.data.dropWhile isWSChar
  let body := match cs with
    | '-' :: rest => rest
    | '+' :: rest => rest
    | _ => cs
  let neg : Bool := match cs with
    | '-' :: _ => true
    | _ => false
  let intPart := body.takeWhile isDecDigit
  let afterInt := body.dropWhile isDecDigit
  let fracPart := match afterInt with
    | '.' :: r => r.takeWhile isDecDigit
    | _ => []
  if intPart.isEmpty && fracPart.isEmpty then none
  else
    let base : Int := (decValue intPart : Int) * 10 ^ fracPart.length + (decValue fracPart : Int)
    some (mkRat (if neg then -base else base) (10 ^ fracPart.length))

/-- Columns of a ProductVariant row read by `syncSingleOrder`'s
`findUnique({ where: { variantId } })` lookup. -/
structure VariantRow where
  id : Nat
  variantId : Int
  deriving DecidableEq

/-- Columns of a Customer row read by `syncSingleOrder`'s
`findUnique({ where: { customerId } })` lookup. -/
structure CustomerRow where
  id : Nat
  customerId : Int
  deriving DecidableEq

/-- Address fields read from a raw order's shipping/billing address. -/
structure AddrData where
  firstName : Option String
  lastName : Option String
  company : Option String
  address1 : Option String
  address2 : Option String
  city : Option String
  province : Option String
  country : Option String
  zip : Option String
  phone : Option String
  name : Option String
  countryCodeV2 : Option String
  provinceCode : Option String
  latitude : Option Rat
  longitude : Option Rat
  deriving DecidableEq

/-- One Shipping/BillingAddress row, keyed by its order's local id. -/
structure AddrRow where
  orderId : Nat
  firstName : Option String
  lastName : Option String
  company : Option String
  address1 : Option String
  address2 : Option String
  city : Option String
  province : Option String
  country : Option String
  zip : Option String
  phone : Option String
  name : Option String
  countryCode : Option String
  provinceCode : Option String
  latitude : Option Rat
  longitude : Option Rat
  deriving DecidableEq

/-- One raw line item as read by `syncSingleOrder`. -/
structure LineItemData where
  variantGid : Option String
  productGid : Option String
  quantity : Int
  amount : String
  deriving DecidableEq

/-- One raw order as read by `syncSingleOrder`. -/
structure OrderData where
  id : String
  orderNumber : Nat
  email : Option String
  financialStatus : Option String
  fulfillmentStatus : Option String
  totalAmount : Option String
  currencyCode : String
  customerGid : Option String
  createdAt : Nat
  updatedAt : Nat
  lineItems : List LineItemData
  shippingAddress : Option AddrData
  billingAddress : Option AddrData
  deriving DecidableEq

/-- One local Order row. -/
structure OrderRow where
  id : Nat
  orderId : Int
  shopId : Option Nat
  orderNumber : String
  email : Option String
  financialStatus : Option String
  fulfillmentStatus : Option String
  totalPrice : Option Rat
  currency : String
  customerId : Option Nat
  createdAt : Nat
  updatedAt : Nat
  deriving DecidableEq

/-- One local OrderItem row; created with `db.orderItem.create`, never
updated. -/
structure OrderItemRow where
  id : Nat
  orderId : Nat
  productVariantId : Option Nat
  productId : Option Nat
  quantity : Int
  price : Option Rat
  deriving DecidableEq

/-- Local state touched by `syncSingleOrder`. -/
structure OrderState where
  customers : List CustomerRow
  variants : List VariantRow
  products : List ProductRow
  orders : List OrderRow
  orderItems : List OrderItemRow
  shippingAddresses : List AddrRow
  billingAddresses : List AddrRow
  nextOrderId : Nat
  nextItemId : Nat
  deriving DecidableEq

/-- Gid literals stripped by `syncSingleOrder`. -/
def orderGidTag : String := "gid://shopify/Order/"

/-- Gid literal for customer references. -/
def customerGidTag : String := "gid://shopify/Customer/"

/-- Gid literal for variant references. -/
def variantGidTag : String := "gid://shopify/ProductVariant/"

/-- Unique-key test for `where: { orderId }`. -/
def orderKey (k : Int) (r : OrderRow) : Bool := decide (r.orderId = k)

/-- The `update` field set of the order upsert. -/
def orderApplyUpdate (d : OrderData) (customerId : Option Nat) (r : OrderRow) : OrderRow :=
  { r with
    orderNumber := toString d.orderNumber
    email := d.email
    financialStatus := d.financialStatus
    fulfillmentStatus := d.fulfillmentStatus
    totalPrice := match d.totalAmount with
      | some a => jsParseFloat? a
      | none => none
    currency := d.currencyCode
    customerId := customerId
    updatedAt := d.updatedAt }

/-- `db.order.upsert({ where: { orderId }, update, create })`. -/
def orderUpsert (k : Int) (shopId : Option Nat) (d : OrderData) (customerId : Option Nat)
    (tbl : List OrderRow) (seq : Nat) : OrderRow × List OrderRow × Nat :=
  match tbl.find? (orderKey k) with
  | some r =>
    (orderApplyUpdate d customerId r,
     tbl.map (fun x => if orderKey k x then orderApplyUpdate d customerId x else x),
     seq)
  | none =>
    let r : OrderRow :=
      { id := seq
        orderId := k
        shopId := shopId
        orderNumber := toString d.orderNumber
        email := d.email
        financialStatus := d.financialStatus
        fulfillmentStatus := d.fulfillmentStatus
        totalPrice := match d.totalAmount with
          | some a => jsParseFloat? a
          | none => none
        currency := d.currencyCode
        customerId := customerId
        createdAt := d.createdAt
        updatedAt := d.updatedAt }
    (r, tbl ++ [r], seq + 1)

/-- Resolution of an optional gid reference to a local row id: no
reference degrades to `null`, an unparsable gid throws, a parsable gid not
found locally degrades to `null`. -/
def resolveRef (tag : String) (lookup : Int → Option Nat) :
    Option String → Except String (Option Nat)
  | none => Except.ok none
  | some g =>
    match gidToId tag g with
    | Except.error e => Except.error e
    | Except.ok rk => Except.ok (lookup rk)

/-- The line-item loop of `syncSingleOrder`: every line item is inserted
with `db.orderItem.create` — there is no lookup of an existing row — after
resolving its variant and product references. -/
def createOrderItems (orderLocalId : Nat) (variants : List VariantRow)
    (products : List ProductRow) :
    List LineItemData → Nat → Except String (List OrderItemRow × Nat)
  | [], seq => Except.ok ([], seq)
  | li :: rest, seq =>
    match resolveRef variantGidTag
        (fun vk => (variants.find? (fun v => decide (v.variantId = vk))).map
          (fun v => v.id)) li.variantGid with
    | Except.error e => Except.error e
    | Except.ok pvId =>
      match resolveRef productGidTag
          (fun pk => (products.find? (productKey pk)).map (fun p => p.id)) li.productGid with
      | Except.error e => Except.error e
      | Except.ok pId =>
        match createOrderItems orderLocalId variants products rest (seq + 1) with
        | Except.error e => Except.error e
        | Except.ok rows =>
          Except.ok
            ({ id := seq
               orderId := orderLocalId
               productVariantId := pvId
               productId := pId
               quantity := li.quantity
               price := jsParseFloat? li.amount } :: rows.1, rows.2)

/-- Row built from a raw address (`countryCode` stores `countryCodeV2`). -/
def addrRowOf (orderLocalId : Nat) (a : AddrData) : AddrRow :=
  { orderId := orderLocalId
    firstName := a.firstName
    lastName := a.lastName
    company := a.company
    address1 := a.address1
    address2 := a.address2
    city := a.city
    province := a.province
    country := a.country
    zip := a.zip
    phone := a.phone
    name := a.name
    countryCode := a.countryCodeV2
    provinceCode := a.provinceCode
    latitude := a.latitude
    longitude := a.longitude }

/-- `db.shippingAddress.upsert` / `db.billingAddress.upsert`, keyed by the
order's local id; both the update and create field sets write every
column. -/
def addrUpsert (orderLocalId : Nat) (a : AddrData) (tbl : List AddrRow) : List AddrRow :=
  match tbl.find? (fun r => decide (r.orderId = orderLocalId)) with
  | some _ =>
    tbl.map (fun r =>
      if decide (r.orderId = orderLocalId) then addrRowOf orderLocalId a else r)
  | none => tbl ++ [addrRowOf orderLocalId a]

/-- `syncSingleOrder`: resolve the order's remote id and customer
reference, upsert the Order row, append one OrderItem row per line item,
then upsert the shipping and billing addresses. -/
def syncSingleOrder (shopId : Option Nat) (d : OrderData) (s : OrderState) :
    Except String OrderState :=
  match gidToId orderGidTag d.id with
  | Except.error e => Except.error e
  | Except.ok k =>
    match resolveRef customerGidTag
        (fun ck => (s.customers.find? (fun c => decide (c.customerId = ck))).map
          (fun c => c.id)) d.customerGid with
    | Except.error e => Except.error e
    | Except.ok customerId =>
      let u := orderUpsert k shopId d customerId s.orders s.nextOrderId
      match createOrderItems u.1.id s.variants s.products d.lineItems s.nextItemId with
      | Except.error e => Except.error e
      | Except.ok items =>
        let ship := match d.shippingAddress with
          | some a => addrUpsert u.1.id a s.shippingAddresses
          | none => s.shippingAddresses
        let bill := match d.billingAddress with
          | some a => addrUpsert u.1.id a s.billingAddresses
          | none => s.billingAddresses
        Except.ok { s with
          orders := u.2.1
          nextOrderId := u.2.2
          orderItems := s.orderItems ++ items.1
          nextItemId := items.2
          shippingAddresses := ship
          billingAddresses := bill }

lemma orderApplyUpdate_key (k : Int) (d : OrderData) (cid : Option Nat) (x : OrderRow) :
    orderKey k (orderApplyUpdate d cid x) = orderKey k x := rfl

lemma orderKey_comp_update (k : Int) (d : OrderData) (cid : Option Nat) :
    (orderKey k ∘ (fun x => if orderKey k x then orderApplyUpdate d cid x else x))
    = orderKey k := by
  funext x
  by_cases hx : orderKey k x = true
  · simp [Function.comp, hx, orderApplyUpdate_key]
  · simp [Function.comp, hx]

lemma orderUpsert_countP (k : Int) (shopId : Option Nat) (d : OrderData) (cid : Option Nat)
    (tbl : List OrderRow) (seq : Nat) (hle : tbl.countP (orderKey k) ≤ 1) :
    (orderUpsert k shopId d cid tbl seq).2.1.countP (orderKey k) = 1 := by
  cases h : tbl.find? (orderKey k) with
  | none =>
    have hall := List.find?_eq_none.mp h
    simp only [orderUpsert, h]
    rw [List.countP_append]
    have h0 : tbl.countP (orderKey k) = 0 := by
      rw [List.countP_eq_zero]
      exact hall
    rw [h0]
    simp [List.countP, List.countP.go, orderKey]
  | some r =>
    have hpos : 0 < tbl.countP (orderKey k) :=
      List.countP_pos_iff.mpr ⟨r, List.mem_of_find?_eq_some h, List.find?_some h⟩
    simp only [orderUpsert, h]
    rw [List.countP_map, orderKey_comp_update]
    exact Nat.le_antisymm hle hpos

lemma createOrderItems_shift (variants : List VariantRow) (products : List ProductRow) :
    ∀ (lis : List LineItemData) (oid seq : Nat) (r : List OrderItemRow × Nat),
      createOrderItems oid variants products lis seq = Except.ok r →
      ∀ (oid2 seq2 : Nat), ∃ r2,
        createOrderItems oid2 variants products lis seq2 = Except.ok r2 := by
  intro lis
  induction lis with
  | nil => intro oid seq r _ oid2 seq2; exact ⟨([], seq2), rfl⟩
  | cons li rest ih =>
    intro oid seq r h oid2 seq2
    rw [createOrderItems] at h
    cases hv : resolveRef variantGidTag
        (fun vk => (variants.find? (fun v => decide (v.variantId = vk))).map
          (fun v => v.id)) li.variantGid with
    | error e => rw [hv] at h; cases h
    | ok pvId =>
      rw [hv] at h
      dsimp only at h
      cases hp : resolveRef productGidTag
          (fun pk => (products.find? (productKey pk)).map (fun p => p.id)) li.productGid with
      | error e => rw [hp] at h; cases h
      | ok pId =>
        rw [hp] at h
        dsimp only at h
        cases hr : createOrderItems oid variants products rest (seq + 1) with
        | error e => rw [hr] at h; cases h
        | ok rows2 =>
          obtain ⟨r2, hrec⟩ := ih oid (seq + 1) rows2 hr oid2 (seq2 + 1)
          refine ⟨(⟨seq2, oid2, pvId, pId, li.quantity, jsParseFloat? li.amount⟩ :: r2.1,
            r2.2), ?_⟩
          rw [createOrderItems, hv]
          dsimp only
          rw [hp]
          dsimp only
          rw [hrec]

lemma createOrderItems_len (oid : Nat) (variants : List VariantRow)
    (products : List ProductRow) :
    ∀ (lis : List LineItemData) (seq : Nat) (rows : List OrderItemRow × Nat),
      createOrderItems oid variants products lis seq = Except.ok rows →
      rows.1.length = lis.length := by
  intro lis
  induction lis with
  | nil =>
    intro seq rows h
    cases h
    rfl
  | cons li rest ih =>
    intro seq rows h
    rw [createOrderItems] at h
    cases hv : resolveRef variantGidTag
        (fun vk => (variants.find? (fun v => decide (v.variantId = vk))).map
          (fun v => v.id)) li.variantGid with
    | error e => rw [hv] at h; cases h
    | ok pvId =>
      rw [hv] at h
      dsimp only at h
      cases hp : resolveRef productGidTag
          (fun pk => (products.find? (productKey pk)).map (fun p => p.id)) li.productGid with
      | error e => rw [hp] at h; cases h
      | ok pId =>
        rw [hp] at h
        dsimp only at h
        cases hr : createOrderItems oid variants products rest (seq + 1) with
        | error e => rw [hr] at h; cases h
        | ok rows2 =>
          rw [hr] at h
          dsimp only at h
          cases h
          simp [ih (seq + 1) rows2 hr]

/-- C7: order line items are create-only.  Two successful runs of
`syncSingleOrder` against the same unchanged order append one fresh
OrderItem row per line item each time — after the second run the state
holds twice as many new rows — earlier rows survive unchanged as a prefix
(nothing is ever updated), while the Order row itself is upserted by its
remote id and is not duplicated. -/
theorem order_items_create_only (shopId : Option Nat) (d : OrderData)
    (s s1 s2 : OrderState) (k : Int)
    (hk : gidToId orderGidTag d.id = Except.ok k)
    (h1 : syncSingleOrder shopId d s = Except.ok s1)
    (h2 : syncSingleOrder shopId d s1 = Except.ok s2) :
    s1.orderItems.length = s.orderItems.length + d.lineItems.length
    ∧ s2.orderItems.length = s.orderItems.length + 2 * d.lineItems.length
    ∧ s.orderItems <+: s1.orderItems
    ∧ s1.orderItems <+: s2.orderItems
    ∧ (s.orders.countP (orderKey k) ≤ 1 →
        s1.orders.countP (orderKey k) = 1 ∧ s2.orders.countP (orderKey k) = 1) := by
  rw [syncSingleOrder, hk] at h1
  cases hcust : resolveRef customerGidTag
      (fun ck => (s.customers.find? (fun c => decide (c.customerId = ck))).map
        (fun c => c.id)) d.customerGid with
  | error e => rw [hcust] at h1; cases h1
  | ok cid =>
    rw [hcust] at h1
    dsimp only at h1
    cases hitems : createOrderItems
        (orderUpsert k shopId d cid s.orders s.nextOrderId).1.id
        s.variants s.products d.lineItems s.nextItemId with
    | error e => rw [hitems] at h1; cases h1
    | ok items =>
      rw [hitems] at h1
      dsimp only at h1
      injection h1 with h1
      subst h1
      have hlen1 := createOrderItems_len _ s.variants s.products d.lineItems s.nextItemId
        items hitems
      rw [syncSingleOrder, hk] at h2
      dsimp only at h2
      rw [hcust] at h2
      dsimp only at h2
      cases hitems2 : createOrderItems
          (orderUpsert k shopId d cid
            (orderUpsert k shopId d cid s.orders s.nextOrderId).2.1
            (orderUpsert k shopId d cid s.orders s.nextOrderId).2.2).1.id
          s.variants s.products d.lineItems items.2 with
      | error e =>
        obtain ⟨r2, hr2⟩ := createOrderItems_shift s.variants s.products d.lineItems
          _ _ _ hitems
          (orderUpsert k shopId d cid
            (orderUpsert k shopId d cid s.orders s.nextOrderId).2.1
            (orderUpsert k shopId d cid s.orders s.nextOrderId).2.2).1.id
          items.2
        rw [hitems2] at hr2
        cases hr2
      | ok items2 =>
        rw [hitems2] at h2
        dsimp only at h2
        injection h2 with h2
        subst h2
        have hlen2 := createOrderItems_len _ s.variants s.products d.lineItems items.2
          items2 hitems2
        refine ⟨?_, ?_, ?_, ?_, ?_⟩
        · dsimp only
          rw [List.length_append, hlen1]
        · dsimp only
          rw [List.length_append, List.length_append, hlen1, hlen2]
          ring
        · exact List.prefix_append _ _
        · dsimp only
          exact List.prefix_append _ _
        · intro hle
          have hc1 : (orderUpsert k shopId d cid s.orders s.nextOrderId).2.1.countP
              (orderKey k) = 1 :=
            orderUpsert_countP k shopId d cid s.orders s.nextOrderId hle
          refine ⟨hc1, ?_⟩
          dsimp only
          exact orderUpsert_countP k shopId d cid _ _ (by rw [hc1])

/-- Concrete order for the C7 witness: one line item with no variant or
product reference. -/
def c7Order : OrderData :=
  ⟨"gid://shopify/Order/50", 1001, some "e@x", none, none, some "10.00", "USD",
    none, 0, 0, [⟨none, none, 2, "5.00"⟩], none, none⟩

/-- Empty order-sync state for the C7 witness. -/
def c7State : OrderState := ⟨[], [], [], [], [], [], [], 0, 0⟩

/-- State after one run of `syncSingleOrder` on the C7 witness order. -/
def c7s1 : OrderState :=
  ⟨[], [], [],
    [⟨0, 50, some 1, "1001", some "e@x", none, none, some 10, "USD", none, 0, 0⟩],
    [⟨0, 0, none, none, 2, some 5⟩], [], [], 1, 1⟩

/-- State after the second run: the line item row is duplicated, the Order
row is not. -/
def c7s2 : OrderState :=
  ⟨[], [], [],
    [⟨0, 50, some 1, "1001", some "e@x", none, none, some 10, "USD", none, 0, 0⟩],
    [⟨0, 0, none, none, 2, some 5⟩, ⟨1, 0, none, none, 2, some 5⟩], [], [], 1, 2⟩

/-- Witness for C7: the create-only theorem at a concrete one-line-item
order run twice from an empty state. -/
theorem order_items_create_only_witness :
    c7s1.orderItems.length = c7State.orderItems.length + c7Order.lineItems.length
    ∧ c7s2.orderItems.length = c7State.orderItems.length + 2 * c7Order.lineItems.length
    ∧ c7State.orderItems <+: c7s1.orderItems
    ∧ c7s1.orderItems <+: c7s2.orderItems
    ∧ (c7State.orders.countP (orderKey 50) ≤ 1 →
        c7s1.orders.countP (orderKey 50) = 1 ∧ c7s2.orders.countP (orderKey 50) = 1) :=
  order_items_create_only (some 1) c7Order c7State c7s1 c7s2 50 rfl (by rfl) (by rfl)

/-- Witness for C2 (amended): uniqueness and update-path preservation at a
concrete one-row table. -/
theorem upsert_idempotence_amended_witness :
    ((productUpsert 7 (some 1)
        ⟨"gid://shopify/Product/7", "T", "h", "v", "ACTIVE", 10, 11⟩
        ⟨[⟨3, 7, some 1, "Old", "oh", "ov", "draft", 4, 5⟩], 9⟩).2.rows.countP
      (productKey 7) = 1)
    ∧ (productUpsert 7 (some 1)
        ⟨"gid://shopify/Product/7", "T", "h", "v", "ACTIVE", 10, 11⟩
        ⟨[⟨3, 7, some 1, "Old", "oh", "ov", "draft", 4, 5⟩], 9⟩).1.id = 3
    ∧ (productUpsert 7 (some 1)
        ⟨"gid://shopify/Product/7", "T", "h", "v", "ACTIVE", 10, 11⟩
        ⟨[⟨3, 7, some 1, "Old", "oh", "ov", "draft", 4, 5⟩], 9⟩).1.createdAt = 4 :=
  ⟨upsert_idempotence_amended.2.1 7 (some 1)
      ⟨"gid://shopify/Product/7", "T", "h", "v", "ACTIVE", 10, 11⟩
      ⟨[⟨3, 7, some 1, "Old", "oh", "ov", "draft", 4, 5⟩], 9⟩ (by decide),
   (upsert_idempotence_amended.2.2.2.1 7 (some 1)
      ⟨"gid://shopify/Product/7", "T", "h", "v", "ACTIVE", 10, 11⟩
      ⟨[⟨3, 7, some 1, "Old", "oh", "ov", "draft", 4, 5⟩], 9⟩
      ⟨3, 7, some 1, "Old", "oh", "ov", "draft", 4, 5⟩ (by decide)).1,
   (upsert_idempotence_amended.2.2.2.1 7 (some 1)
      ⟨"gid://shopify/Product/7", "T", "h", "v", "ACTIVE", 10, 11⟩
      ⟨[⟨3, 7, some 1, "Old", "oh", "ov", "draft", 4, 5⟩], 9⟩
      ⟨3, 7, some 1, "Old", "oh", "ov", "draft", 4, 5⟩ (by decide)).2.1⟩

/-! ## Webhook reconciliation (`registerWebhooks` / `deleteOldWebhooks`)

The utility fetches the existing subscriptions, marks as stale every one
whose HTTP callback URL does not contain the configured app URL, deletes
the stale ones best-effort, creates a subscription at `appUrl + uri` for
every desired topic lacking one with a correct URL, and returns a
per-topic result list — except that when nothing is stale and no topic is
missing it returns early with the (empty) result list.  Create outcomes
are an input: the mutation can succeed, report userErrors (result status
"failed"), or throw (result status "error"). -/

/-- JS `String.prototype.includes`: substring containment. -/
def containsSub (pat : List Char) : List Char → Bool
  | [] => pat.isEmpty
  | c :: rest => pat.isPrefixOf (c :: rest) || containsSub pat rest

/-- String-level wrapper for `containsSub`. -/
def jsIncludes (s sub : String) : Bool := containsSub sub.data s.data

/-- `webhook.endpoint?.callbackUrl?.includes(appUrl)` — a missing HTTP
endpoint (optional chaining yields undefined) is falsy. -/
def optIncludes : Option String → String → Bool
  | none, _ => false
  | some u, appUrl => jsIncludes u appUrl

/-- One remote webhook subscription as the reconciler reads it. -/
structure RWebhook where
  id : String
  topic : String
  callbackUrl : Option String
  deriving DecidableEq

/-- The desired `(topic, uri)` pairs hardcoded in `registerWebhooks`. -/
def webhookTopics : List (String × String) :=
  [("products/create", "/webhooks/products/create"),
   ("products/update", "/webhooks/products/update"),
   ("app/uninstalled", "/webhooks/app/uninstalled"),
   ("app/scopes_update", "/webhooks/app/scopes_update")]

/-- `topic.toUpperCase().replace(/\//g, "_")` — the GraphQL enum form a
remote subscription reports; uppercasing leaves '/' unchanged, so the two
steps fuse into one character map. -/
def jsTopicName (t : String) : String :=
  String.mk (t.data.map (fun c => if c = '/' then '_' else c.toUpper))

/-- Stale test: `callbackUrl && !callbackUrl.includes(appUrl)` — a missing
or empty callback URL is falsy and never marked stale. -/
def isStale (appUrl : String) (w : RWebhook) : Bool :=
  match w.callbackUrl with
  | none => false
  | some u => !u.isEmpty && !(jsIncludes u appUrl)

/-- A desired topic already has a subscription in enum form whose callback
URL contains the app URL. -/
def hasCorrectWebhook (appUrl : String) (existing : List RWebhook) (topic : String) : Bool :=
  existing.any (fun w => decide (w.topic = jsTopicName topic) && optIncludes w.callbackUrl appUrl)

/-- Outcome of one `webhookSubscriptionCreate` mutation. -/
inductive CreateOutcome where
  | ok
  | userErrors
  | threw
  deriving DecidableEq

/-- Result status string pushed for one create attempt. -/
def createStatus : CreateOutcome → String
  | CreateOutcome.ok => "created"
  | CreateOutcome.userErrors => "failed"
  | CreateOutcome.threw => "error"

/-- The early-return test: some webhooks exist, none is stale, and no
desired topic is missing. -/
def allConverged (appUrl : String) (existing : List RWebhook) : Bool :=
  !existing.isEmpty && (existing.filter (isStale appUrl)).isEmpty
    && (webhookTopics.filter (fun tp => !(hasCorrectWebhook appUrl existing tp.1))).isEmpty

/-- Observable effects of one `registerWebhooks` pass: the subscriptions
whose deletion is attempted, the `(topic, callbackUrl)` creations
attempted, and the returned per-topic result list. -/
structure RWOutput where
  deletes : List RWebhook
  creates : List (String × String)
  results : List (String × String)
  deriving DecidableEq

/-- One `registerWebhooks` pass over the fetched subscriptions. -/
def registerWebhooksModel (appUrl : String) (existing : List RWebhook)
    (outcome : String → CreateOutcome) : RWOutput :=
  if allConverged appUrl existing then { deletes := [], creates := [], results := [] }
  else
    let topicsNeeding := webhookTopics.filter (fun tp => !(hasCorrectWebhook appUrl existing tp.1))
    { deletes := existing.filter (isStale appUrl)
      creates := topicsNeeding.map (fun tp => (tp.1, appUrl ++ tp.2))
      results := topicsNeeding.map (fun tp => (tp.1, createStatus (outcome tp.1)))
        ++ (webhookTopics.filter (fun tp => hasCorrectWebhook appUrl existing tp.1)).map
            (fun tp => (tp.1, "exists")) }

/-- The remote subscription set after a pass in which every delete and
create succeeds: stale subscriptions are gone and each created one
reports its topic in enum form at the new callback URL (the fresh remote
id is opaque and unused; the created topic string stands in for it). -/
def convergeState (appUrl : String) (existing : List RWebhook) : List RWebhook :=
  existing.filter (fun w => !(isStale appUrl w))
  ++ ((registerWebhooksModel appUrl existing (fun _ => CreateOutcome.ok)).creates).map
      (fun c => { id := c.1, topic := jsTopicName c.1, callbackUrl := some c.2 })

lemma containsSub_append_self (p s : List Char) : containsSub p (p ++ s) = true := by
  cases hp : p ++ s with
  | nil =>
    have : p = [] := by
      cases p
      · rfl
      · cases hp
    subst this
    simp [containsSub]
  | cons c rest =>
    rw [containsSub]
    have : p.isPrefixOf (p ++ s) = true :=
      List.isPrefixOf_iff_prefix.mpr (List.prefix_append _ _)
    rw [hp] at this
    rw [this]
    rfl

lemma jsIncludes_append_self (appUrl uri : String) :
    jsIncludes (appUrl ++ uri) appUrl = true := by
  rw [jsIncludes, String.data_append]
  exact containsSub_append_self _ _

/-- C3: with one stale subscription (its callback URL does not contain the
current app URL) for products/create, correct subscriptions for the two
app topics, and products/update missing entirely, a single pass deletes
exactly the stale subscription and creates exactly the replacement and the
missing topic at app URL + path; a second pass against the converged
remote state attempts zero deletes and zero creates. -/
theorem webhook_reconciliation_converges (appUrl oldUrl i1 i2 i3 : String)
    (o o2 : String → CreateOutcome)
    (h1 : jsIncludes oldUrl appUrl = false)
    (h2 : oldUrl.isEmpty = false) :
    (registerWebhooksModel appUrl
        [⟨i1, "PRODUCTS_CREATE", some oldUrl⟩,
         ⟨i2, "APP_UNINSTALLED", some (appUrl ++ "/webhooks/app/uninstalled")⟩,
         ⟨i3, "APP_SCOPES_UPDATE", some (appUrl ++ "/webhooks/app/scopes_update")⟩] o).deletes
      = [⟨i1, "PRODUCTS_CREATE", some oldUrl⟩]
    ∧ (registerWebhooksModel appUrl
        [⟨i1, "PRODUCTS_CREATE", some oldUrl⟩,
         ⟨i2, "APP_UNINSTALLED", some (appUrl ++ "/webhooks/app/uninstalled")⟩,
         ⟨i3, "APP_SCOPES_UPDATE", some (appUrl ++ "/webhooks/app/scopes_update")⟩] o).creates
      = [("products/create", appUrl ++ "/webhooks/products/create"),
         ("products/update", appUrl ++ "/webhooks/products/update")]
    ∧ (registerWebhooksModel appUrl
        (convergeState appUrl
          [⟨i1, "PRODUCTS_CREATE", some oldUrl⟩,
           ⟨i2, "APP_UNINSTALLED", some (appUrl ++ "/webhooks/app/uninstalled")⟩,
           ⟨i3, "APP_SCOPES_UPDATE", some (appUrl ++ "/webhooks/app/scopes_update")⟩]) o2).deletes
      = []
    ∧ (registerWebhooksModel appUrl
        (convergeState appUrl
          [⟨i1, "PRODUCTS_CREATE", some oldUrl⟩,
           ⟨i2, "APP_UNINSTALLED", some (appUrl ++ "/webhooks/app/uninstalled")⟩,
           ⟨i3, "APP_SCOPES_UPDATE", some (appUrl ++ "/webhooks/app/scopes_update")⟩]) o2).creates
      = [] := by
  have hs1 : isStale appUrl (⟨i1, "PRODUCTS_CREATE", some oldUrl⟩ : RWebhook) = true := by
    simp [isStale, h1, h2]
  have hs2 : isStale appUrl
      (⟨i2, "APP_UNINSTALLED", some (appUrl ++ "/webhooks/app/uninstalled")⟩ : RWebhook)
      = false := by
    simp [isStale, jsIncludes_append_self]
  have hs3 : isStale appUrl
      (⟨i3, "APP_SCOPES_UPDATE", some (appUrl ++ "/webhooks/app/scopes_update")⟩ : RWebhook)
      = false := by
    simp [isStale, jsIncludes_append_self]
  have tn1 : jsTopicName "products/create" = "PRODUCTS_CREATE" := by decide
  have tn2 : jsTopicName "products/update" = "PRODUCTS_UPDATE" := by decide
  have tn3 : jsTopicName "app/uninstalled" = "APP_UNINSTALLED" := by decide
  have tn4 : jsTopicName "app/scopes_update" = "APP_SCOPES_UPDATE" := by decide
  refine ⟨?_, ?_, ?_, ?_⟩ <;>
    simp [registerWebhooksModel, allConverged, webhookTopics, hasCorrectWebhook,
      optIncludes, convergeState, isStale, hs1, hs2, hs3, tn1, tn2, tn3, tn4, h1, h2,
      jsIncludes_append_self]

/-- Witness for C3: the convergence theorem at concrete URLs. -/
theorem webhook_reconciliation_converges_witness :
    (registerWebhooksModel "https://new.example.com"
        [⟨"1", "PRODUCTS_CREATE", some "https://old.example.com/webhooks/products/create"⟩,
         ⟨"2", "APP_UNINSTALLED", some ("https://new.example.com" ++ "/webhooks/app/uninstalled")⟩,
         ⟨"3", "APP_SCOPES_UPDATE", some ("https://new.example.com" ++ "/webhooks/app/scopes_update")⟩]
        (fun _ => CreateOutcome.ok)).deletes
      = [⟨"1", "PRODUCTS_CREATE", some "https://old.example.com/webhooks/products/create"⟩]
    ∧ (registerWebhooksModel "https://new.example.com"
        [⟨"1", "PRODUCTS_CREATE", some "https://old.example.com/webhooks/products/create"⟩,
         ⟨"2", "APP_UNINSTALLED", some ("https://new.example.com" ++ "/webhooks/app/uninstalled")⟩,
         ⟨"3", "APP_SCOPES_UPDATE", some ("https://new.example.com" ++ "/webhooks/app/scopes_update")⟩]
        (fun _ => CreateOutcome.ok)).creates
      = [("products/create", "https://new.example.com" ++ "/webhooks/products/create"),
         ("products/update", "https://new.example.com" ++ "/webhooks/products/update")]
    ∧ (registerWebhooksModel "https://new.example.com"
        (convergeState "https://new.example.com"
          [⟨"1", "PRODUCTS_CREATE", some "https://old.example.com/webhooks/products/create"⟩,
           ⟨"2", "APP_UNINSTALLED", some ("https://new.example.com" ++ "/webhooks/app/uninstalled")⟩,
           ⟨"3", "APP_SCOPES_UPDATE", some ("https://new.example.com" ++ "/webhooks/app/scopes_update")⟩])
        (fun _ => CreateOutcome.ok)).deletes
      = []
    ∧ (registerWebhooksModel "https://new.example.com"
        (convergeState "https://new.example.com"
          [⟨"1", "PRODUCTS_CREATE", some "https://old.example.com/webhooks/products/create"⟩,
           ⟨"2", "APP_UNINSTALLED", some ("https://new.example.com" ++ "/webhooks/app/uninstalled")⟩,
           ⟨"3", "APP_SCOPES_UPDATE", some ("https://new.example.com" ++ "/webhooks/app/scopes_update")⟩])
        (fun _ => CreateOutcome.ok)).creates
      = [] :=
  webhook_reconciliation_converges "https://new.example.com"
    "https://old.example.com/webhooks/products/create" "1" "2" "3"
    (fun _ => CreateOutcome.ok) (fun _ => CreateOutcome.ok) (by decide) (by decide)

/-- C5 (amended): when the reconciler does not take its all-converged
early return, the returned list covers each desired topic exactly once
with status created, failed (create returned userErrors), error (create
threw), or exists; when everything is already converged it returns the
empty list instead of a per-topic list. -/
theorem webhook_results_amended (appUrl : String) (existing : List RWebhook)
    (outcome : String → CreateOutcome) :
    (allConverged appUrl existing = true →
      (registerWebhooksModel appUrl existing outcome).results = [])
    ∧ (allConverged appUrl existing = false →
      ((registerWebhooksModel appUrl existing outcome).results.map Prod.fst).Perm
        (webhookTopics.map Prod.fst)
      ∧ ∀ r ∈ (registerWebhooksModel appUrl existing outcome).results,
          r.2 = "created" ∨ r.2 = "failed" ∨ r.2 = "error" ∨ r.2 = "exists") := by
  constructor
  · intro h
    simp [registerWebhooksModel, h]
  · intro h
    constructor
    · simp only [registerWebhooksModel, h, Bool.false_eq_true, if_false]
      rw [List.map_append, List.map_map, List.map_map]
      have e1 : List.map (Prod.fst ∘ fun tp : String × String => (tp.1, createStatus (outcome tp.1)))
          (webhookTopics.filter (fun tp => !(hasCorrectWebhook appUrl existing tp.1)))
          = List.map Prod.fst
            (webhookTopics.filter (fun tp => !(hasCorrectWebhook appUrl existing tp.1))) :=
        List.map_congr_left (fun a _ => rfl)
      have e2 : List.map (Prod.fst ∘ fun tp : String × String => (tp.1, "exists"))
          (webhookTopics.filter (fun tp => hasCorrectWebhook appUrl existing tp.1))
          = List.map Prod.fst
            (webhookTopics.filter (fun tp => hasCorrectWebhook appUrl existing tp.1)) :=
        List.map_congr_left (fun a _ => rfl)
      rw [e1, e2, ← List.map_append]
      refine List.Perm.map Prod.fst ?_
      exact (List.perm_append_comm).trans
        (List.filter_append_perm (fun tp => hasCorrectWebhook appUrl existing tp.1) webhookTopics)
    · intro r hr
      simp only [registerWebhooksModel, h, Bool.false_eq_true, if_false] at hr
      rw [List.mem_append] at hr
      rcases hr with hr | hr
      · obtain ⟨tp, _, htp⟩ := List.mem_map.mp hr
        subst htp
        cases outcome tp.1 <;> simp [createStatus]
      · obtain ⟨tp, _, htp⟩ := List.mem_map.mp hr
        subst htp
        simp

/-- Remote state for the C5 counterexample: all four desired topics
already subscribed at the current app URL. -/
def c5Converged : List RWebhook :=
  [⟨"1", "PRODUCTS_CREATE", some "https://app.example.com/webhooks/products/create"⟩,
   ⟨"2", "PRODUCTS_UPDATE", some "https://app.example.com/webhooks/products/update"⟩,
   ⟨"3", "APP_UNINSTALLED", some "https://app.example.com/webhooks/app/uninstalled"⟩,
   ⟨"4", "APP_SCOPES_UPDATE", some "https://app.example.com/webhooks/app/scopes_update"⟩]

/-- C5 counterexample: on the fully converged input the pass returns the
empty list — not a status list covering the four desired topics — and a
create attempt that throws is reported with status "error", not
"failed". -/
theorem webhook_results_counterexample :
    (registerWebhooksModel "https://app.example.com" c5Converged
      (fun _ => CreateOutcome.ok)).results = []
    ∧ webhookTopics.length = 4
    ∧ ((registerWebhooksModel "https://app.example.com" []
        (fun _ => CreateOutcome.threw)).results).map Prod.snd
      = ["error", "error", "error", "error"] := by
  refine ⟨?_, rfl, ?_⟩ <;> decide

/-- Witness for C5 (amended): the per-topic coverage clause at an empty
remote state with all creates succeeding. -/
theorem webhook_results_amended_witness :
    ((registerWebhooksModel "https://a.example" [] (fun _ => CreateOutcome.ok)).results.map
      Prod.fst).Perm (webhookTopics.map Prod.fst)
    ∧ ∀ r ∈ (registerWebhooksModel "https://a.example" [] (fun _ => CreateOutcome.ok)).results,
        r.2 = "created" ∨ r.2 = "failed" ∨ r.2 = "error" ∨ r.2 = "exists" :=
  (webhook_results_amended "https://a.example" [] (fun _ => CreateOutcome.ok)).2 (by decide)

end SmbOS
